import Mathlib

/-!
Shallow embedding of `bus.py` (the PiBus transit-countdown appliance).

The embedding models the pure content of the methods of class `PiBus`:

* `getTimes`       — `PiBus.getTimes` (bus.py lines 140-163)
* `fetchBusJSON`   — `PiBus.fetchBusJSON` (lines 105-118); the network
  outcome is an explicit input, and a Python exception escaping the
  method is `Except.error`
* `updateBusInfo`  — `PiBus.updateBusInfo` (lines 120-138)
* `renderBusInfo`  — `PiBus.renderBusInfo` (lines 165-225); panel calls
  are recorded as an effect list
* `initPanel`      — the panel-detection `try/except` of `PiBus.__init__`
  (lines 80-87)

Machine details carried over from Python: `datetime` subtraction and
`divmod(·, 60)[0]` floor to `Int.fdiv`; `"%02d" %` formatting to `fmt2`;
`list.sort()` on strings to `pySort`, sorting by the code-point
lexicographic order (`strLe`); Python truthiness `not x` on an optional
list is `x = none ∨ x = some []`.
-/

namespace PiBus

/-- One element of the TfL arrivals payload, with only the two fields the
program reads: the route name and the expected-arrival instant
(modelled as integral seconds since the epoch, UTC). -/
structure BusItem where
  lineName : String
  expectedArrival : Int
deriving DecidableEq

/-- Character for a single decimal digit, as produced by Python `%d`. -/
def digitChar (d : Nat) : Char := Char.ofNat (48 + d)

/-- Fuel-indexed digit expansion; with fuel at least 1 the fuel never
runs out, since `n / 10 < n` whenever `10 ≤ n`. -/
def natCharsAux : Nat → Nat → List Char
  | 0, _ => []
  | fuel + 1, n =>
    if n < 10 then [digitChar n]
    else natCharsAux fuel (n / 10) ++ [digitChar (n % 10)]

/-- Decimal digit characters of a natural number, most significant first,
as produced by Python `%d` (so `0` renders as `"0"`). -/
def natChars (n : Nat) : List Char := natCharsAux (n + 1) n

/-- Python `"%02d" % n` for a non-negative `n`: the decimal digits,
left-padded with `'0'` to a minimum width of 2. -/
def fmt2 (n : Nat) : String :=
  String.mk (List.replicate (2 - (natChars n).length) '0' ++ natChars n)

/-- Code-point lexicographic order on character lists: exactly the order
Python uses to compare `str` values, which `list.sort()` sorts by. -/
def lexLe : List Char → List Char → Bool
  | [], _ => true
  | _ :: _, [] => false
  | a :: as, b :: bs =>
    if a.toNat < b.toNat then true
    else if b.toNat < a.toNat then false
    else lexLe as bs

/-- Python string comparison `a <= b`. -/
def strLe (a b : String) : Bool := lexLe a.data b.data

/-- The sorted permutation computed by Python `list.sort()` on a list of
strings (ties are identical strings, so every correct sort returns the
same list; insertion sort is used because it evaluates by `decide`). -/
def pySort (l : List String) : List String :=
  List.insertionSort (fun a b => strLe a b = true) l

/-- The body of the loop in `getTimes`:
`minutesDue = divmod((due - now).total_seconds(), 60)[0]`, a floor
division. -/
def minutesDue (now : Int) (b : BusItem) : Int :=
  (b.expectedArrival - now).fdiv 60

/-- One formatted entry of `getTimes`: `"%02d" % max(minutesDue, 0)`. -/
def busEntry (now : Int) (b : BusItem) : String :=
  fmt2 (max (minutesDue now b) 0).toNat

/-- The three sequential pads of `getTimes` (bus.py lines 156-161):
`if len(times) == 0: append "--"`, then `== 1`, then `== 2`, each test
seeing the list as left by the previous one. The source never truncates
the list. -/
def padTo3 (times : List String) : List String :=
  let times := if times.length = 0 then times ++ ["--"] else times
  let times := if times.length = 1 then times ++ ["--"] else times
  let times := if times.length = 2 then times ++ ["--"] else times
  times

/-- `PiBus.getTimes` (bus.py lines 140-163). `currentJSON` is the filtered
snapshot field; `now` is the single `datetime.now(utc)` sample taken
before the loop. Returns `none` for the Python `return None`
(`if not self.currentJSON`, true for both `None` and the empty list). -/
def getTimes (currentJSON : Option (List BusItem)) (now : Int) :
    Option (List String) :=
  match currentJSON with
  | none => none
  | some [] => none
  | some items =>
    some (padTo3 (pySort (items.map (busEntry now))))

/-- `PiBus.getTimes` with the wall clock made explicit as a stream of
samples: the source calls `datetime.datetime.now(...)` exactly once, at
the start of the computation, so only sample `0` is ever read. -/
def getTimesSampled (currentJSON : Option (List BusItem))
    (clock : Nat → Int) : Option (List String) :=
  getTimes currentJSON (clock 0)

/-- Outcome of `self.session.get(url, timeout=20)` together with the
parse of the body: either the request itself raised (connection error,
timeout, ...), or a response came back with some status code and a body
that either parses as an arrivals array or does not. -/
inductive HttpOutcome where
  | requestError
  | response (status : Nat) (body : Option (List BusItem))
deriving DecidableEq

/-- `PiBus.fetchBusJSON` (bus.py lines 105-118). The `try/except` wraps
only `session.get`, so a request exception is caught and `None` is
returned; `result.json()` sits outside the `try`, so an unparsable body
raises out of the method (`Except.error`). The status code of the
response is never inspected. -/
def fetchBusJSON (o : HttpOutcome) : Except String (Option (List BusItem)) :=
  match o with
  | .requestError => .ok none
  | .response _ none => .error "JSONDecodeError"
  | .response _ (some items) => .ok (some items)

/-- The `lastFetchTime` field: initially `None`, set to the int `-1` on a
failed update, or to a `time.strftime` string on a successful one. -/
inductive LastFetch where
  | unset
  | sentinel
  | fetchedAt (t : String)
deriving DecidableEq

/-- Presenter / console effects a render tick can emit, in order:
`panel.display(image)`, `panel.update()`, `panel.partial_update()`, or a
`print` to standard output. -/
inductive Op where
  | displayImage
  | fullUpdate
  | partialUpdate
  | printLine (s : String)
deriving DecidableEq

/-- The mutable fields of the `PiBus` instance that the fetch and render
tasks read and write. -/
structure PiBusState where
  panel : Option Unit
  currentJSON : Option (List BusItem)
  renderSuspended : Bool
  partialCount : Nat
  lastFetchTime : LastFetch
deriving DecidableEq

/-- The panel-detection `try/except` of `PiBus.__init__` (bus.py lines
80-87): a failing `EPD()` constructor is caught, `panel` is set to
`None`, a warning is logged and initialisation continues (the process
does not exit). -/
def initPanel (detect : Except String Unit) : Option Unit :=
  match detect with
  | .ok p => some p
  | .error _ => none

/-- `PiBus.updateBusInfo` (bus.py lines 120-138). An exception raised by
`fetchBusJSON` propagates (the method has no handler). `if not rawJSON`
is true both for `None` and for an empty list, and that branch sets
`currentJSON = None`, `lastFetchTime = -1` and returns `False`;
otherwise the payload is filtered case-insensitively on `lineName`,
`lastFetchTime` is set to the formatted current time `nowStr`, and
`True` is returned. -/
def updateBusInfo (busLine : String) (nowStr : String) (o : HttpOutcome)
    (st : PiBusState) : Except String (PiBusState × Bool) :=
  match fetchBusJSON o with
  | .error e => .error e
  | .ok none =>
    .ok ({ st with currentJSON := none, lastFetchTime := .sentinel }, false)
  | .ok (some []) =>
    .ok ({ st with currentJSON := none, lastFetchTime := .sentinel }, false)
  | .ok (some (x :: xs)) =>
    .ok ({ st with
            currentJSON :=
              some ((x :: xs).filter
                (fun b => b.lineName.toLower == busLine.toLower)),
            lastFetchTime := .fetchedAt nowStr }, true)

/-- `PiBus.renderBusInfo` (bus.py lines 165-225). The method begins with
`PIL.Image.new('1', self.panel.size, WHITE)`, so when `panel` is `None`
it raises `AttributeError` before doing anything else — it contains no
`print` call and no console fallback. With a panel: a `None` result from
`getTimes` draws the "No data available" screen and does a full refresh
once (`display` + `update`), setting `renderSuspended`; while suspended
it does nothing; with data it clears `renderSuspended`, displays, and
either forces a full refresh and resets `partialCount` (when the counter
has reached 10) or does a partial refresh and increments the counter. -/
def renderBusInfo (now : Int) (st : PiBusState) :
    Except String (PiBusState × List Op) :=
  match st.panel with
  | none => .error "AttributeError"
  | some _ =>
    match getTimes st.currentJSON now with
    | none =>
      if st.renderSuspended then
        .ok (st, [])
      else
        .ok ({ st with renderSuspended := true },
             [.displayImage, .fullUpdate])
    | some _ =>
      if st.partialCount ≥ 10 then
        .ok ({ st with renderSuspended := false, partialCount := 0 },
             [.displayImage, .fullUpdate])
      else
        .ok ({ st with renderSuspended := false,
                       partialCount := st.partialCount + 1 },
             [.displayImage, .partialUpdate])

/-- A run of consecutive render ticks. Before each tick the shared
snapshot cell holds the given value (the fetch task owns that cell; the
render task only reads it), then `renderBusInfo` runs. Returns the final
state and the per-tick effect lists. -/
def runRenderTicks (now : Int) :
    List (Option (List BusItem)) → PiBusState →
    Except String (PiBusState × List (List Op))
  | [], st => .ok (st, [])
  | snap :: rest, st =>
    match renderBusInfo now { st with currentJSON := snap } with
    | .error e => .error e
    | .ok (st₁, ops) =>
      match runRenderTicks now rest st₁ with
      | .error e => .error e
      | .ok (st₂, opss) => .ok (st₂, ops :: opss)

/-- Numeric value of a string of decimal digits (used to state what
"ascending by numeric value" means about the output strings). -/
def decimalVal (s : String) : Nat :=
  s.data.foldl (fun a c => 10 * a + (c.toNat - 48)) 0

/- ### Order lemmas for the Python string comparison -/

theorem lexLe_total : ∀ as bs : List Char, lexLe as bs = true ∨ lexLe bs as = true
  | [], _ => Or.inl rfl
  | _ :: _, [] => Or.inr rfl
  | a :: as, b :: bs => by
    rcases Nat.lt_trichotomy a.toNat b.toNat with h | h | h
    · left; simp [lexLe, h]
    · have hab : ¬ a.toNat < b.toNat := by omega
      have hba : ¬ b.toNat < a.toNat := by omega
      rcases lexLe_total as bs with ih | ih
      · left; simp [lexLe, hab, hba, ih]
      · right; simp [lexLe, hab, hba, ih]
    · right; simp [lexLe, h]

theorem lexLe_trans : ∀ as bs cs : List Char,
    lexLe as bs = true → lexLe bs cs = true → lexLe as cs = true
  | [], _, _, _, _ => rfl
  | _ :: _, [], _, hab, _ => by simp [lexLe] at hab
  | _ :: _, _ :: _, [], _, hbc => by simp [lexLe] at hbc
  | a :: as, b :: bs, c :: cs, hab, hbc => by
    simp only [lexLe] at hab hbc ⊢
    rcases Nat.lt_trichotomy a.toNat b.toNat with h1 | h1 | h1
    · rcases Nat.lt_trichotomy b.toNat c.toNat with h2 | h2 | h2
      · simp [show a.toNat < c.toNat by omega]
      · simp [show a.toNat < c.toNat by omega]
      · rw [if_neg (by omega : ¬ b.toNat < c.toNat),
            if_pos (by omega : c.toNat < b.toNat)] at hbc
        simp at hbc
    · rw [if_neg (by omega : ¬ a.toNat < b.toNat),
          if_neg (by omega : ¬ b.toNat < a.toNat)] at hab
      rcases Nat.lt_trichotomy b.toNat c.toNat with h2 | h2 | h2
      · simp [show a.toNat < c.toNat by omega]
      · rw [if_neg (by omega : ¬ b.toNat < c.toNat),
            if_neg (by omega : ¬ c.toNat < b.toNat)] at hbc
        rw [if_neg (by omega : ¬ a.toNat < c.toNat),
            if_neg (by omega : ¬ c.toNat < a.toNat)]
        exact lexLe_trans as bs cs hab hbc
      · rw [if_neg (by omega : ¬ b.toNat < c.toNat),
            if_pos (by omega : c.toNat < b.toNat)] at hbc
        simp at hbc
    · rw [if_neg (by omega : ¬ a.toNat < b.toNat),
          if_pos (by omega : b.toNat < a.toNat)] at hab
      simp at hab

instance : IsTotal String (fun a b => strLe a b = true) :=
  ⟨fun a b => lexLe_total a.data b.data⟩

instance : IsTrans String (fun a b => strLe a b = true) :=
  ⟨fun a b c => lexLe_trans a.data b.data c.data⟩

theorem pySort_perm (l : List String) : (pySort l).Perm l :=
  List.perm_insertionSort _ l

theorem pySort_sorted (l : List String) :
    List.Pairwise (fun a b => strLe a b = true) (pySort l) :=
  List.sorted_insertionSort _ l

theorem pySort_length (l : List String) : (pySort l).length = l.length :=
  (pySort_perm l).length_eq

/- ### Digit and formatting lemmas -/

theorem digitChar_isDigit {d : Nat} (h : d < 10) : (digitChar d).isDigit = true := by
  interval_cases d <;> decide

theorem natCharsAux_digits :
    ∀ fuel n : Nat, ∀ c ∈ natCharsAux fuel n, c.isDigit = true := by
  intro fuel
  induction fuel with
  | zero => intro n c h; simp [natCharsAux] at h
  | succ f ih =>
    intro n c h
    by_cases h10 : n < 10
    · simp [natCharsAux, h10] at h
      subst h
      exact digitChar_isDigit h10
    · simp [natCharsAux, h10] at h
      rcases h with h | h
      · exact ih _ _ h
      · subst h
        exact digitChar_isDigit (Nat.mod_lt _ (by omega))

theorem fmt2_digits (n : Nat) : ∀ c ∈ (fmt2 n).data, c.isDigit = true := by
  intro c h
  simp only [fmt2, List.mem_append] at h
  rcases h with h | h
  · rw [List.eq_of_mem_replicate h]; decide
  · exact natCharsAux_digits _ _ c h

theorem fmt2_length (n : Nat) : 2 ≤ (fmt2 n).length := by
  show 2 ≤ (fmt2 n).data.length
  simp only [fmt2, List.length_append, List.length_replicate]
  omega

theorem fmt2_ne_placeholder (n : Nat) : fmt2 n ≠ "--" := by
  intro h
  have hmem : '-' ∈ (fmt2 n).data := by
    rw [h]; decide
  have := fmt2_digits n '-' hmem
  simp [Char.isDigit] at this

theorem busEntry_ne_placeholder (now : Int) (b : BusItem) :
    busEntry now b ≠ "--" := fmt2_ne_placeholder _

/- ### Structure of the getTimes output -/

theorem padTo3_eq : ∀ L : List String,
    padTo3 L = L ++ List.replicate (3 - L.length) "--"
  | [] => rfl
  | [a] => by simp [padTo3]
  | [a, b] => by simp [padTo3]
  | a :: b :: c :: rest => by
    simp only [padTo3, List.length_cons,
      if_neg (show ¬ (rest.length + 1 + 1 + 1 = 0) by omega),
      if_neg (show ¬ (rest.length + 1 + 1 + 1 = 1) by omega),
      if_neg (show ¬ (rest.length + 1 + 1 + 1 = 2) by omega),
      show 3 - (rest.length + 1 + 1 + 1) = 0 by omega,
      List.replicate_zero, List.append_nil]

theorem getTimes_eq (items : List BusItem) (now : Int) (hne : items ≠ []) :
    getTimes (some items) now =
      some (pySort (items.map (busEntry now)) ++
            List.replicate (3 - items.length) "--") := by
  obtain ⟨x, xs, rfl⟩ : ∃ y ys, items = y :: ys := by
    cases items with
    | nil => exact absurd rfl hne
    | cons y ys => exact ⟨y, ys, rfl⟩
  show some (padTo3 (pySort ((x :: xs).map (busEntry now)))) = _
  rw [padTo3_eq, pySort_length, List.length_map]

theorem getTimes_mem (items : List BusItem) (now : Int) (s : String)
    (hs : s ∈ pySort (items.map (busEntry now)) ++
            List.replicate (3 - items.length) "--") :
    s = "--" ∨ ∃ b ∈ items, s = busEntry now b := by
  rcases List.mem_append.mp hs with h | h
  · have : s ∈ items.map (busEntry now) := ((pySort_perm _).mem_iff).mp h
    rcases List.mem_map.mp this with ⟨b, hb, rfl⟩
    exact Or.inr ⟨b, hb, rfl⟩
  · exact Or.inl (List.eq_of_mem_replicate h)

/- ### Single-tick behaviour of renderBusInfo -/

theorem renderBusInfo_nodata_fresh (now : Int) (cj : Option (List BusItem))
    (pc : Nat) (lf : LastFetch) (hd : getTimes cj now = none) :
    renderBusInfo now ⟨some (), cj, false, pc, lf⟩ =
      .ok (⟨some (), cj, true, pc, lf⟩, [Op.displayImage, Op.fullUpdate]) := by
  simp [renderBusInfo, hd]

theorem renderBusInfo_nodata_suspended (now : Int) (cj : Option (List BusItem))
    (pc : Nat) (lf : LastFetch) (hd : getTimes cj now = none) :
    renderBusInfo now ⟨some (), cj, true, pc, lf⟩ =
      .ok (⟨some (), cj, true, pc, lf⟩, []) := by
  simp [renderBusInfo, hd]

theorem renderBusInfo_data_full (now : Int) (cj : Option (List BusItem))
    (ts : List String) (rs : Bool) (pc : Nat) (lf : LastFetch)
    (hd : getTimes cj now = some ts) (hc : 10 ≤ pc) :
    renderBusInfo now ⟨some (), cj, rs, pc, lf⟩ =
      .ok (⟨some (), cj, false, 0, lf⟩, [Op.displayImage, Op.fullUpdate]) := by
  simp [renderBusInfo, hd, hc]

theorem renderBusInfo_data_partialStep (now : Int) (cj : Option (List BusItem))
    (ts : List String) (rs : Bool) (pc : Nat) (lf : LastFetch)
    (hd : getTimes cj now = some ts) (hc : pc < 10) :
    renderBusInfo now ⟨some (), cj, rs, pc, lf⟩ =
      .ok (⟨some (), cj, false, pc + 1, lf⟩, [Op.displayImage, Op.partialUpdate]) := by
  simp [renderBusInfo, hd, show ¬ 10 ≤ pc by omega]

/- ### Multi-tick runs -/

theorem runRenderTicks_nil (now : Int) (st : PiBusState) :
    runRenderTicks now [] st = .ok (st, []) := rfl

theorem runRenderTicks_cons (now : Int) (snap : Option (List BusItem))
    (rest : List (Option (List BusItem))) (st st₁ : PiBusState) (ops : List Op)
    (h : renderBusInfo now { st with currentJSON := snap } = .ok (st₁, ops))
    (stF : PiBusState) (opss : List (List Op))
    (h2 : runRenderTicks now rest st₁ = .ok (stF, opss)) :
    runRenderTicks now (snap :: rest) st = .ok (stF, ops :: opss) := by
  simp only [runRenderTicks, h, h2]

theorem runSkipThenData (now : Int) (nodata data : Option (List BusItem))
    (ts : List String) (hnd : getTimes nodata now = none)
    (hd : getTimes data now = some ts) :
    ∀ (n : Nat) (cj : Option (List BusItem)) (pc : Nat) (lf : LastFetch),
      ∃ stF ops,
        runRenderTicks now (List.replicate n nodata ++ [data])
            ⟨some (), cj, true, pc, lf⟩ =
          .ok (stF, List.replicate n [] ++ [ops]) ∧
        Op.displayImage ∈ ops ∧ stF.renderSuspended = false := by
  intro n
  induction n with
  | zero =>
    intro cj pc lf
    by_cases hc : 10 ≤ pc
    · exact ⟨⟨some (), data, false, 0, lf⟩, [Op.displayImage, Op.fullUpdate],
        runRenderTicks_cons now data [] _ _ _
          (renderBusInfo_data_full now data ts true pc lf hd hc) _ _
          (runRenderTicks_nil now _),
        by simp, rfl⟩
    · exact ⟨⟨some (), data, false, pc + 1, lf⟩,
        [Op.displayImage, Op.partialUpdate],
        runRenderTicks_cons now data [] _ _ _
          (renderBusInfo_data_partialStep now data ts true pc lf hd (by omega)) _ _
          (runRenderTicks_nil now _),
        by simp, rfl⟩
  | succ k ih =>
    intro cj pc lf
    obtain ⟨stF, ops, hrun, hmem, hsf⟩ := ih nodata pc lf
    refine ⟨stF, ops, ?_, hmem, hsf⟩
    have hstep := runRenderTicks_cons now nodata
      (List.replicate k nodata ++ [data]) ⟨some (), cj, true, pc, lf⟩ _ _
      (renderBusInfo_nodata_suspended now nodata pc lf hnd) _ _ hrun
    simpa [List.replicate_succ] using hstep

theorem runDataTicks (now : Int) (snap : Option (List BusItem))
    (ts : List String) (hd : getTimes snap now = some ts) :
    ∀ (k : Nat) (cj : Option (List BusItem)) (rs : Bool) (pc : Nat)
      (lf : LastFetch), pc + k = 10 →
      runRenderTicks now (List.replicate (k + 1) snap) ⟨some (), cj, rs, pc, lf⟩ =
        .ok (⟨some (), snap, false, 0, lf⟩,
             List.replicate k [Op.displayImage, Op.partialUpdate] ++
               [[Op.displayImage, Op.fullUpdate]]) := by
  intro k
  induction k with
  | zero =>
    intro cj rs pc lf hpc
    have h10 : pc = 10 := by omega
    subst h10
    exact runRenderTicks_cons now snap [] _ _ _
      (renderBusInfo_data_full now snap ts rs 10 lf hd (by omega)) _ _
      (runRenderTicks_nil now _)
  | succ k ih =>
    intro cj rs pc lf hpc
    have hstep := runRenderTicks_cons now snap (List.replicate (k + 1) snap)
      ⟨some (), cj, rs, pc, lf⟩ _ _
      (renderBusInfo_data_partialStep now snap ts rs pc lf hd (by omega)) _ _
      (ih snap false (pc + 1) lf (by omega))
    simpa [List.replicate_succ] using hstep

/- ### Claim theorems -/

/-- C1 (counterexample): the claim "the output has exactly 3 entries —
never more" is false. With 4 matching records (due in 1, 2, 3 and 4
minutes) `getTimes` returns 4 entries: the source pads up to 3 but never
truncates. -/
theorem C1_counterexample :
    getTimes (some [⟨"94", 60⟩, ⟨"94", 120⟩, ⟨"94", 180⟩, ⟨"94", 240⟩]) 0 =
      some ["01", "02", "03", "04"] ∧
    (["01", "02", "03", "04"] : List String).length ≠ 3 := by
  exact ⟨by decide, by decide⟩

/-- C1 (amended): for every present snapshot with at least one matching
record, `getTimes` returns exactly `max n 3` entries (`n` the number of
records — at least 3, more when more than 3 arrivals exist, with no
truncation), each entry either the placeholder `"--"` or a zero-padded
decimal numeral of at least two digits denoting a non-negative
integer. -/
theorem C1_output_shape (items : List BusItem) (now : Int) (hne : items ≠ []) :
    ∃ ts, getTimes (some items) now = some ts ∧
      ts.length = max items.length 3 ∧
      ∀ s ∈ ts, s = "--" ∨ (2 ≤ s.length ∧ ∀ c ∈ s.data, c.isDigit = true) := by
  refine ⟨_, getTimes_eq items now hne, ?_, ?_⟩
  · rw [List.length_append, pySort_length, List.length_map,
      List.length_replicate]
    omega
  · intro s hs
    rcases getTimes_mem items now s hs with h | ⟨b, _, rfl⟩
    · exact Or.inl h
    · exact Or.inr ⟨fmt2_length _, fmt2_digits _⟩

/-- C1 (witness): the amended shape theorem applied to a one-record
snapshot. -/
theorem C1_output_shape_witness :
    ([⟨"94", 125⟩] : List BusItem) ≠ [] ∧
    ∃ ts, getTimes (some [⟨"94", 125⟩]) 0 = some ts ∧
      ts.length = max ([⟨"94", 125⟩] : List BusItem).length 3 ∧
      ∀ s ∈ ts, s = "--" ∨ (2 ≤ s.length ∧ ∀ c ∈ s.data, c.isDigit = true) :=
  ⟨by decide, C1_output_shape [⟨"94", 125⟩] 0 (by decide)⟩

/-- C2 (counterexample): the claim "a malformed/unparsable body is
reported to the caller as a failure value and never raised out of the
fetch step" is false: `result.json()` sits outside the `try`, so with a
response whose body does not parse, `fetchBusJSON` raises
`JSONDecodeError`, and `updateBusInfo` (which has no handler) lets it
escape. -/
theorem C2_counterexample :
    fetchBusJSON (.response 200 none) = .error "JSONDecodeError" ∧
    updateBusInfo "94" "12:00:00 01/01/2026" (.response 200 none)
        ⟨some (), none, false, 0, .unset⟩ = .error "JSONDecodeError" :=
  ⟨rfl, rfl⟩

/-- C2 (amended): a transport error or timeout raised by `session.get`
is caught and reported as a failure value (`None` payload: snapshot set
absent, `False` returned, no exception), but an unparsable body raises
out of the fetch step, and the status code of a response is never
inspected (a non-2xx response is processed exactly like a 2xx one with
the same body). -/
theorem C2_fetch_failure_handling (busLine nowStr : String) (st : PiBusState)
    (s s' : Nat) (body : Option (List BusItem)) :
    fetchBusJSON .requestError = .ok none ∧
    updateBusInfo busLine nowStr .requestError st =
      .ok ({ st with currentJSON := none, lastFetchTime := .sentinel },
           false) ∧
    fetchBusJSON (.response s body) = fetchBusJSON (.response s' body) := by
  refine ⟨rfl, rfl, ?_⟩
  cases body <;> rfl

/-- C3 (counterexample): the claim "with no panel, every render tick
prints the three countdown values (or a no-data message) to standard
output" is false: with `panel = None` and data present, `renderBusInfo`
raises `AttributeError` at `self.panel.size` and emits no output at all
(in particular no `printLine` effect). -/
theorem C3_counterexample :
    renderBusInfo 0 ⟨none, some [⟨"94", 125⟩], false, 0, .unset⟩ =
      .error "AttributeError" := rfl

/-- C3 (amended): panel-detection failure at startup is caught (`panel`
is set to `None` and initialisation continues, so startup is not fatal),
but every subsequent render tick with `panel = None` raises an
`AttributeError` instead of printing anything: the code has no console
fallback in the render path. -/
theorem C3_no_panel_degraded (e : String) (now : Int) (st : PiBusState)
    (h : st.panel = none) :
    initPanel (.error e) = none ∧
    renderBusInfo now st = .error "AttributeError" := by
  refine ⟨rfl, ?_⟩
  obtain ⟨p, cj, rs, pc, lf⟩ := st
  cases p with
  | none => rfl
  | some u => simp at h

/-- C3 (witness): the degraded-mode theorem applied to a concrete
panel-less state. -/
theorem C3_no_panel_degraded_witness :
    (⟨none, some [⟨"94", 125⟩], false, 0, .unset⟩ : PiBusState).panel = none ∧
    (initPanel (.error "no panel") = none ∧
     renderBusInfo 7 ⟨none, some [⟨"94", 125⟩], false, 0, .unset⟩ =
       .error "AttributeError") :=
  ⟨rfl, C3_no_panel_degraded "no panel" 7 _ rfl⟩

/-- C4 (counterexample): the claim "output values are sorted ascending
by numeric value among the non-placeholder entries" is false. With
arrivals due in 99 and 100 minutes the entries are `"99"` and `"100"`,
and Python's string sort puts `"100"` before `"99"`: the real entries
come out in numeric order 100, 99. -/
theorem C4_counterexample :
    getTimes (some [⟨"94", 5940⟩, ⟨"94", 6000⟩]) 0 =
      some ["100", "99", "--"] ∧
    decimalVal "100" = 100 ∧ decimalVal "99" = 99 ∧
    ¬ List.Pairwise (fun a b => decimalVal a ≤ decimalVal b) ["100", "99"] := by
  exact ⟨by decide, by decide, by decide, by decide⟩

/-- C4 (amended): the non-placeholder entries are sorted ascending in
code-point lexicographic string order (which agrees with numeric order
only while all entries have the same digit count, e.g. all below 100
minutes), and every placeholder entry comes after all real entries:
the output is the sorted real entries followed by the padding. -/
theorem C4_output_order (items : List BusItem) (now : Int) (hne : items ≠ []) :
    ∃ reals,
      getTimes (some items) now =
        some (reals ++ List.replicate (3 - items.length) "--") ∧
      List.Pairwise (fun a b => strLe a b = true) reals ∧
      "--" ∉ reals := by
  refine ⟨pySort (items.map (busEntry now)), getTimes_eq items now hne,
    pySort_sorted _, ?_⟩
  intro hmem
  have hmap : "--" ∈ items.map (busEntry now) :=
    (pySort_perm _).mem_iff.mp hmem
  rcases List.mem_map.mp hmap with ⟨b, _, hb⟩
  exact absurd hb (busEntry_ne_placeholder now b)

/-- C4 (witness): the amended order theorem applied to a two-record
snapshot. -/
theorem C4_output_order_witness :
    ([⟨"94", 610⟩, ⟨"94", 125⟩] : List BusItem) ≠ [] ∧
    ∃ reals,
      getTimes (some [⟨"94", 610⟩, ⟨"94", 125⟩]) 0 =
        some (reals ++
          List.replicate (3 - ([⟨"94", 610⟩, ⟨"94", 125⟩] : List BusItem).length)
            "--") ∧
      List.Pairwise (fun a b => strLe a b = true) reals ∧
      "--" ∉ reals :=
  ⟨by decide, C4_output_order [⟨"94", 610⟩, ⟨"94", 125⟩] 0 (by decide)⟩

/-- C5: each record's countdown is
`floor((expectedArrival - now) / 60)` clamped below at zero, so a record
whose expected arrival is at or before `now` renders as `"00"`; and the
concrete snapshot with arrivals due in 125 s, 610 s and 40 s renders as
`["00", "02", "10"]`. -/
theorem C5_clamp_and_scenario :
    (∀ (now : Int) (b : BusItem), b.expectedArrival ≤ now →
       busEntry now b = "00") ∧
    getTimes (some [⟨"94", 125⟩, ⟨"94", 610⟩, ⟨"94", 40⟩]) 0 =
      some ["00", "02", "10"] := by
  constructor
  · intro now b h
    have h1 : minutesDue now b ≤ 0 := by
      have h2 := Int.fdiv_add_fmod (b.expectedArrival - now) 60
      have h3 : 0 ≤ (b.expectedArrival - now).fmod 60 :=
        Int.fmod_nonneg' _ (by decide)
      unfold minutesDue
      omega
    unfold busEntry
    rw [max_eq_right h1]
    rfl
  · decide

/-- C5 (witness): the clamp applied to a bus already 30 seconds
overdue. -/
theorem C5_clamp_and_scenario_witness :
    (⟨"94", -30⟩ : BusItem).expectedArrival ≤ 0 ∧
    busEntry 0 ⟨"94", -30⟩ = "00" :=
  ⟨by decide, C5_clamp_and_scenario.1 0 ⟨"94", -30⟩ (by decide)⟩

/-- C6: `getTimes` returns the distinguished `none` ("no data") exactly
when the snapshot is absent or holds zero matching records; `none` is a
different value from a 3-placeholder list, and a `some` result is never
the 3-placeholder list (its first entry is always a real numeral). -/
theorem C6_nodata_iff :
    (∀ (snap : Option (List BusItem)) (now : Int),
        getTimes snap now = none ↔ snap = none ∨ snap = some []) ∧
    ((none : Option (List String)) ≠ some ["--", "--", "--"]) ∧
    (∀ (snap : Option (List BusItem)) (now : Int) (ts : List String),
        getTimes snap now = some ts → ts ≠ ["--", "--", "--"]) := by
  refine ⟨?_, by simp, ?_⟩
  · intro snap now
    constructor
    · intro h
      match snap with
      | none => exact Or.inl rfl
      | some [] => exact Or.inr rfl
      | some (x :: xs) =>
        rw [getTimes_eq _ _ (List.cons_ne_nil x xs)] at h
        exact absurd h (by simp)
    · rintro (rfl | rfl) <;> rfl
  · intro snap now ts h hts
    subst hts
    match snap, h with
    | none, h => simp [getTimes] at h
    | some [], h => simp [getTimes] at h
    | some (x :: xs), h =>
      rw [getTimes_eq _ _ (List.cons_ne_nil x xs)] at h
      have hlen : (pySort ((x :: xs).map (busEntry now))).length =
          xs.length + 1 := by
        rw [pySort_length, List.length_map, List.length_cons]
      obtain ⟨r, rs, hr⟩ :
          ∃ r rs, pySort ((x :: xs).map (busEntry now)) = r :: rs := by
        cases hpy : pySort ((x :: xs).map (busEntry now)) with
        | nil => rw [hpy] at hlen; simp at hlen
        | cons r rs => exact ⟨r, rs, rfl⟩
      rw [hr, List.cons_append] at h
      have h2 := Option.some.inj h
      injection h2 with h3 _h4
      have hmem : "--" ∈ pySort ((x :: xs).map (busEntry now)) := by
        rw [hr, h3]
        exact List.mem_cons_self _ _
      have hmap : "--" ∈ (x :: xs).map (busEntry now) :=
        (pySort_perm _).mem_iff.mp hmem
      rcases List.mem_map.mp hmap with ⟨b, _, hb⟩
      exact absurd hb (busEntry_ne_placeholder now b)

/-- C6 (witness): the iff and the no-3-placeholder fact applied to
concrete snapshots. -/
theorem C6_nodata_iff_witness :
    getTimes (some ([] : List BusItem)) 0 = none ∧
    ["01", "--", "--"] ≠ ["--", "--", "--"] :=
  ⟨(C6_nodata_iff.1 (some []) 0).mpr (Or.inr rfl),
   C6_nodata_iff.2.2 (some [⟨"94", 60⟩]) 0 ["01", "--", "--"] (by decide)⟩

/-- C7: starting from a state that was showing real data
(`renderSuspended = false`), a tick seeing "no data" performs exactly
one full-surface redraw (`display` then full `update`); every further
tick while "no data" persists emits no effects at all; and when data
resumes, the tick renders again (the display op fires) with
`renderSuspended` cleared. -/
theorem C7_nodata_transition (now : Int) (cj nodata data : Option (List BusItem))
    (ts : List String) (pc : Nat) (lf : LastFetch) (n : Nat)
    (hnd : getTimes nodata now = none) (hd : getTimes data now = some ts) :
    ∃ stF ops,
      runRenderTicks now (nodata :: (List.replicate n nodata ++ [data]))
          ⟨some (), cj, false, pc, lf⟩ =
        .ok (stF,
          [Op.displayImage, Op.fullUpdate] :: (List.replicate n [] ++ [ops])) ∧
      Op.displayImage ∈ ops ∧ stF.renderSuspended = false := by
  obtain ⟨stF, ops, hrun, hmem, hsf⟩ :=
    runSkipThenData now nodata data ts hnd hd n nodata pc lf
  exact ⟨stF, ops,
    runRenderTicks_cons now nodata (List.replicate n nodata ++ [data])
      ⟨some (), cj, false, pc, lf⟩ _ _
      (renderBusInfo_nodata_fresh now nodata pc lf hnd) _ _ hrun,
    hmem, hsf⟩

/-- C7 (witness): the transition theorem on a concrete run: data shown,
then three no-data ticks (one full redraw, two skips), then data
again. -/
theorem C7_nodata_transition_witness :
    getTimes (none : Option (List BusItem)) 0 = none ∧
    getTimes (some [⟨"94", 60⟩]) 0 = some ["01", "--", "--"] ∧
    ∃ stF ops,
      runRenderTicks 0 (none :: (List.replicate 2 none ++ [some [⟨"94", 60⟩]]))
          ⟨some (), some [⟨"94", 60⟩], false, 0, .unset⟩ =
        .ok (stF,
          [Op.displayImage, Op.fullUpdate] :: (List.replicate 2 [] ++ [ops])) ∧
      Op.displayImage ∈ ops ∧ stF.renderSuspended = false :=
  ⟨rfl, by decide,
   C7_nodata_transition 0 (some [⟨"94", 60⟩]) none (some [⟨"94", 60⟩])
     ["01", "--", "--"] 0 .unset 2 rfl (by decide)⟩

/-- C8: from a fresh counter (`partialCount = 0`), 11 consecutive render
ticks with data present do 10 partial refreshes then one forced full
refresh, leaving the counter at 0; and in general any data tick with
counter at least 10 forces a full refresh and resets the counter, while
a data tick with counter below 10 does a partial refresh and increments
it. -/
theorem C8_refresh_cycle (now : Int) (snap cj : Option (List BusItem))
    (ts : List String) (rs : Bool) (lf : LastFetch)
    (hd : getTimes snap now = some ts) :
    (runRenderTicks now (List.replicate 11 snap) ⟨some (), cj, rs, 0, lf⟩ =
      .ok (⟨some (), snap, false, 0, lf⟩,
           List.replicate 10 [Op.displayImage, Op.partialUpdate] ++
             [[Op.displayImage, Op.fullUpdate]])) ∧
    (∀ (rs' : Bool) (pc : Nat) (lf' : LastFetch), 10 ≤ pc →
       renderBusInfo now ⟨some (), snap, rs', pc, lf'⟩ =
         .ok (⟨some (), snap, false, 0, lf'⟩,
              [Op.displayImage, Op.fullUpdate])) ∧
    (∀ (rs' : Bool) (pc : Nat) (lf' : LastFetch), pc < 10 →
       renderBusInfo now ⟨some (), snap, rs', pc, lf'⟩ =
         .ok (⟨some (), snap, false, pc + 1, lf'⟩,
              [Op.displayImage, Op.partialUpdate])) :=
  ⟨runDataTicks now snap ts hd 10 cj rs 0 lf (by omega),
   fun rs' pc lf' hc => renderBusInfo_data_full now snap ts rs' pc lf' hd hc,
   fun rs' pc lf' hc => renderBusInfo_data_partialStep now snap ts rs' pc lf' hd hc⟩

/-- C8 (witness): the refresh-cycle theorem on a concrete one-record
snapshot. -/
theorem C8_refresh_cycle_witness :
    getTimes (some [⟨"94", 60⟩]) 0 = some ["01", "--", "--"] ∧
    runRenderTicks 0 (List.replicate 11 (some [⟨"94", 60⟩]))
        ⟨some (), none, false, 0, .unset⟩ =
      .ok (⟨some (), some [⟨"94", 60⟩], false, 0, .unset⟩,
           List.replicate 10 [Op.displayImage, Op.partialUpdate] ++
             [[Op.displayImage, Op.fullUpdate]]) :=
  ⟨by decide,
   (C8_refresh_cycle 0 (some [⟨"94", 60⟩]) none ["01", "--", "--"] false .unset
     (by decide)).1⟩

/-- C9: the calculator samples the clock exactly once, at the start of
the computation: its result depends only on sample 0, so two runs over
the same snapshot with clocks agreeing on that first sample (in
particular two runs with the same frozen clock) give identical
output. -/
theorem C9_deterministic (snap : Option (List BusItem)) (c₁ c₂ : Nat → Int)
    (h : c₁ 0 = c₂ 0) :
    getTimesSampled snap c₁ = getTimesSampled snap c₂ ∧
    getTimesSampled snap c₁ = getTimes snap (c₁ 0) := by
  unfold getTimesSampled
  rw [h]
  exact ⟨rfl, rfl⟩

/-- C9 (witness): two clocks that agree only on sample 0 give the same
output on a concrete snapshot. -/
theorem C9_deterministic_witness :
    (fun _ : Nat => (5 : Int)) 0 = (fun n : Nat => (5 : Int) + n) 0 ∧
    (getTimesSampled (some [⟨"94", 130⟩]) (fun _ : Nat => (5 : Int)) =
       getTimesSampled (some [⟨"94", 130⟩]) (fun n : Nat => (5 : Int) + n) ∧
     getTimesSampled (some [⟨"94", 130⟩]) (fun _ : Nat => (5 : Int)) =
       getTimes (some [⟨"94", 130⟩]) ((fun _ : Nat => (5 : Int)) 0)) :=
  ⟨by decide,
   C9_deterministic (some [⟨"94", 130⟩]) (fun _ : Nat => (5 : Int))
     (fun n : Nat => (5 : Int) + n) (by decide)⟩

/-- C10: a successful fetch whose payload is the empty list takes the
same branch as a fetch failure (`if not rawJSON` is true for both `None`
and `[]`): the snapshot is set absent, `lastFetchTime` is overwritten
with the sentinel `-1`, and `False` is returned — byte-for-byte the same
result as a transport error. -/
theorem C10_empty_payload_as_failure (busLine nowStr : String)
    (st : PiBusState) (s : Nat) :
    updateBusInfo busLine nowStr (.response s (some [])) st =
      .ok ({ st with currentJSON := none, lastFetchTime := .sentinel },
           false) ∧
    updateBusInfo busLine nowStr (.response s (some [])) st =
      updateBusInfo busLine nowStr .requestError st :=
  ⟨rfl, rfl⟩

end PiBus

